import Mathlib

/-!
Verification development for the kitium-ai/types validation layer
(src/validators.ts together with src/primitives.ts).

The TypeScript code delegates runtime validation to the zod library
(declared dependency: zod ^3.22.4).  The relevant zod combinators
(z.string with its format checks, z.number, z.boolean, z.object,
z.array, z.record, z.enum, z.nativeEnum, z.literal, z.date, .or,
.optional, .transform, .refine) are embedded here with their zod
3.22.4 runtime semantics; all transforms appearing in validators.ts
are identity casts at runtime, and all refinements are pure
predicates, so schema application is a total function from input
values to either a parsed value or a structured ZodError.
-/

set_option linter.unusedVariables false
set_option linter.unusedTactic false
set_option linter.unnecessarySeqFocus false

namespace Kitium

/-! ## JSON-like runtime values

Input data for the validators is arbitrary JavaScript data.  We model
the fragment relevant to the schemas of validators.ts: undefined,
null, booleans, numbers (as rationals, which embed every value the
schemas constrain), strings, Date objects (by their epoch
milliseconds), arrays and plain objects (as association lists; a
JavaScript object has no duplicate keys, property access is keyed
lookup). -/

inductive Value where
  | vUndefined
  | vNull
  | vBool (b : Bool)
  | vNum (q : Rat)
  | vStr (s : String)
  | vDate (ms : Int)
  | vArr (items : List Value)
  | vObj (fields : List (String × Value))

/-- Tests whether a value is the JavaScript undefined value. -/
def Value.isUndef : Value → Bool
  | .vUndefined => true
  | _ => false

/-- Path component of a zod issue: an object key or an array index. -/
inductive PathKey where
  | key (k : String)
  | idx (i : Nat)

/-- Structured validation issue, mirroring ZodIssue: a machine code, a
field path and a human readable message. -/
structure ZodIssue where
  code : String
  path : List PathKey
  message : String

/-- Structured validation error, mirroring ZodError: the list of all
issues collected during a parse. -/
structure ZodError where
  issues : List ZodIssue

/-- Result type of createValidator().parse and of the zod safeParse:
a tagged success carrying the parsed value, or a tagged failure
carrying the structured error. -/
inductive ParseResult where
  | success (data : Value)
  | failure (error : ZodError)

/-- Name of the runtime type of a value, as computed by the zod
getParsedType helper and interpolated into invalid_type messages. -/
def parsedTypeName : Value → String
  | .vUndefined => "undefined"
  | .vNull => "null"
  | .vBool _ => "boolean"
  | .vNum _ => "number"
  | .vStr _ => "string"
  | .vDate _ => "date"
  | .vArr _ => "array"
  | .vObj _ => "object"

/-- Issue produced by zod when the runtime type of the input does not
match the schema head; a missing (undefined) value gets the special
message Required. -/
def invalidTypeIssue (expected : String) (v : Value) : ZodIssue :=
  { code := "invalid_type", path := [],
    message :=
      match v with
      | .vUndefined => "Required"
      | v => "Expected " ++ expected ++ ", received " ++ parsedTypeName v }

/-- Prepends one path component to an issue, as zod does when it
reports an issue found below an object key or an array index. -/
def prefixIssue (k : PathKey) (i : ZodIssue) : ZodIssue :=
  { i with path := k :: i.path }

/-! ## String format checks

Each decidable predicate below is the translation of the regular
expression (or host check) that zod 3.22.4 uses for the corresponding
string validator. -/

/-- Length of a string as JavaScript computes it (UTF-16 code units):
code points at or above 0x10000 count twice. -/
def jsLength (s : String) : Nat :=
  (s.data.map (fun c => if 65536 ≤ c.toNat then 2 else 1)).sum

/-- Hexadecimal digit class [0-9a-fA-F]. -/
def isHexChar (c : Char) : Bool :=
  c.isDigit || (97 ≤ c.toNat && c.toNat ≤ 102) || (65 ≤ c.toNat && c.toNat ≤ 70)

/-- Consumes exactly n decimal digits from the front of the list,
returning the remainder, or none. -/
def takeDigits : Nat → List Char → Option (List Char)
  | 0, cs => some cs
  | n + 1, c :: cs => if c.isDigit then takeDigits n cs else none
  | _ + 1, [] => none

/-- Consumes exactly n hexadecimal digits from the front of the list,
returning the remainder, or none. -/
def takeHex : Nat → List Char → Option (List Char)
  | 0, cs => some cs
  | n + 1, c :: cs => if isHexChar c then takeHex n cs else none
  | _ + 1, [] => none

/-- Consumes one expected character from the front of the list. -/
def expectChar (c : Char) : List Char → Option (List Char)
  | d :: cs => if d = c then some cs else none
  | [] => none

/-- Consumes an optional fractional-seconds part, the regex fragment
(\.\d+)? of the zod datetime pattern: either nothing, or a dot
followed by at least one digit. -/
def fracPart : List Char → Option (List Char)
  | '.' :: cs =>
    if (cs.takeWhile Char.isDigit).isEmpty then none
    else some (cs.dropWhile Char.isDigit)
  | cs => some cs

/-- Translation of the default zod 3.22.4 datetime pattern (precision
unconstrained, offset disabled, the configuration produced by the bare
z.string().datetime() call in validators.ts):

  a 4-digit year, dash, 2-digit month, dash, 2-digit day, the letter
  T, 2-digit hour, colon, 2-digit minute, colon, 2-digit second, an
  optional fractional part, then the literal letter Z and nothing
  else.

Numeric timezone offsets are not part of this pattern: zod only
admits them when datetime is called with the offset option, which
validators.ts does not do. -/
def isoDatetimeCheck (s : String) : Bool :=
  match (((((((((takeDigits 4 s.data).bind
    (expectChar '-')).bind (takeDigits 2)).bind
    (expectChar '-')).bind (takeDigits 2)).bind
    (expectChar 'T')).bind (takeDigits 2)).bind
    (expectChar ':')).bind (takeDigits 2)).bind
    (expectChar ':') |>.bind (takeDigits 2) |>.bind fracPart with
  | some rest =>
    match expectChar 'Z' rest with
    | some [] => true
    | _ => false
  | none => false

/-- Translation of the zod 3.22.4 uuid pattern: five groups of
hexadecimal digits of lengths 8, 4, 4, 4 and 12, separated by
dashes, and nothing else. -/
def uuidCheck (s : String) : Bool :=
  match ((((((((takeHex 8 s.data).bind
    (expectChar '-')).bind (takeHex 4)).bind
    (expectChar '-')).bind (takeHex 4)).bind
    (expectChar '-')).bind (takeHex 4)).bind
    (expectChar '-')).bind (takeHex 12) with
  | some [] => true
  | _ => false

/-- Splits a character list on a separator character; the separator
itself is dropped.  Always returns at least one (possibly empty)
part. -/
def splitOnChar (sep : Char) : List Char → List (List Char)
  | [] => [[]]
  | c :: cs =>
    let rest := splitOnChar sep cs
    if c = sep then [] :: rest
    else
      match rest with
      | r :: rs => (c :: r) :: rs
      | [] => [[c]]

/-- Character class of the local part of the zod 3.22.4 email
pattern: ASCII letters, digits, underscore, plus, dash and dot. -/
def emailLocalChar (c : Char) : Bool :=
  c.isAlpha || c.isDigit || c = '_' || c = '+' || c = '-' || c = '.'

/-- Character class required for the final character of the local
part: as above but without the dot. -/
def emailLocalEndChar (c : Char) : Bool :=
  c.isAlpha || c.isDigit || c = '_' || c = '+' || c = '-'

/-- Tests for two consecutive dots anywhere in the list, the negative
lookahead of the zod email pattern. -/
def hasDoubleDot : List Char → Bool
  | '.' :: '.' :: _ => true
  | _ :: cs => hasDoubleDot cs
  | [] => false

/-- Domain label of the email pattern: a leading alphanumeric
character followed by alphanumerics or dashes. -/
def domainLabelOk (l : List Char) : Bool :=
  match l with
  | [] => false
  | c :: cs => (c.isAlpha || c.isDigit) && cs.all (fun d => d.isAlpha || d.isDigit || d = '-')

/-- Top level domain of the email pattern: at least two ASCII
letters. -/
def tldOk (l : List Char) : Bool :=
  2 ≤ l.length && l.all Char.isAlpha

/-- Translation of the zod 3.22.4 email pattern: the string does not
start with a dot and contains no two consecutive dots; it consists of
a nonempty local part (local character class, final character in the
restricted class), one at sign, and a domain of one or more labels
followed by a top level domain of at least two letters. -/
def emailCheck (s : String) : Bool :=
  let cs := s.data
  (match cs with
   | '.' :: _ => false
   | _ => true) &&
  !hasDoubleDot cs &&
  (match splitOnChar '@' cs with
   | [localPart, domain] =>
     (match localPart.reverse with
      | lastC :: _ => emailLocalEndChar lastC
      | [] => false) &&
     localPart.all emailLocalChar &&
     (match (splitOnChar '.' domain).reverse with
      | tld :: l1 :: ls => tldOk tld && (l1 :: ls).all domainLabelOk
      | _ => false)
   | _ => false)

/-- Models the host check behind the zod url validator, which accepts
a string exactly when the WHATWG URL constructor does not throw on
it.  Approximated here as requiring an absolute scheme prefix: an
ASCII-letter-led scheme followed by a colon and a nonempty
remainder.  No claim of this development depends on this predicate;
it only occurs inside schemas whose url fields no theorem evaluates. -/
def urlCheck (s : String) : Bool :=
  match splitOnChar ':' s.data with
  | scheme :: rest1 :: restRest =>
    (match scheme with
     | c :: cs => c.isAlpha && cs.all (fun d => d.isAlpha || d.isDigit || d = '+' || d = '-' || d = '.')
     | [] => false) &&
    !(rest1.isEmpty && restRest.isEmpty)
  | _ => false

/-- Pattern of the regex string checks literally written in
validators.ts. -/
inductive RegexPattern where
  /-- the 6-digit MFA code pattern -/
  | sixDigits
  /-- the phone number pattern: optional plus, optional leading one,
  then 9 to 15 digits -/
  | phone
  /-- the lowercase slug pattern: nonempty, lowercase letters, digits
  and dashes -/
  | slug

/-- Translation of the 6-digit code pattern of MFAVerificationSchema. -/
def sixDigitsCheck (s : String) : Bool :=
  s.data.length = 6 && s.data.all Char.isDigit

/-- Translation of the phone pattern of UpdateUserProfileSchema
(with the regex backtracking over the optional leading one made
explicit as a disjunction). -/
def phoneCheck (s : String) : Bool :=
  let cs :=
    match s.data with
    | '+' :: rest => rest
    | cs => cs
  (cs.all Char.isDigit && 9 ≤ cs.length && cs.length ≤ 15) ||
  (match cs with
   | '1' :: rest => rest.all Char.isDigit && 9 ≤ rest.length && rest.length ≤ 15
   | _ => false)

/-- Translation of the slug pattern of CreateOrganizationSchema,
CreateProductSchema and CreateFeatureSchema. -/
def slugCheck (s : String) : Bool :=
  !s.data.isEmpty && s.data.all (fun c => c.isLower || c.isDigit || c = '-')

/-- Evaluates a regex pattern on a string. -/
def runRegex : RegexPattern → String → Bool
  | .sixDigits, s => sixDigitsCheck s
  | .phone, s => phoneCheck s
  | .slug, s => slugCheck s

/-! ## String and number checks -/

/-- Checks attached to a z.string() schema, in source order. -/
inductive StringCheck where
  | min (n : Nat) (message : String)
  | max (n : Nat) (message : String)
  | length (n : Nat)
  | email (message : String)
  | url (message : String)
  | uuid (message : String)
  | datetime
  | regex (r : RegexPattern) (message : String)

/-- Message zod generates for a failed exact-length string check. -/
def exactLenMsg (n : Nat) : String :=
  "String must contain exactly " ++ toString n ++ " character(s)"

/-- Runs one string check, returning the issue it raises on failure;
zod counts string length in UTF-16 code units. -/
def runStringCheck (str : String) : StringCheck → Option ZodIssue
  | .min n msg => if jsLength str < n then some ⟨"too_small", [], msg⟩ else none
  | .max n msg => if n < jsLength str then some ⟨"too_big", [], msg⟩ else none
  | .length n =>
    if jsLength str < n then some ⟨"too_small", [], exactLenMsg n⟩
    else if n < jsLength str then some ⟨"too_big", [], exactLenMsg n⟩
    else none
  | .email msg => if emailCheck str then none else some ⟨"invalid_string", [], msg⟩
  | .url msg => if urlCheck str then none else some ⟨"invalid_string", [], msg⟩
  | .uuid msg => if uuidCheck str then none else some ⟨"invalid_string", [], msg⟩
  | .datetime => if isoDatetimeCheck str then none else some ⟨"invalid_string", [], "Invalid datetime"⟩
  | .regex r msg => if runRegex r str then none else some ⟨"invalid_string", [], msg⟩

/-- Checks attached to a z.number() schema: integrality and bounds. -/
inductive NumCheck where
  | int (message : String)
  | gt (bound : Rat) (message : String)
  | gte (bound : Rat) (message : String)
  | lte (bound : Rat) (message : String)

/-- Runs one number check. -/
def runNumCheck (q : Rat) : NumCheck → Option ZodIssue
  | .int msg => if q.den = 1 then none else some ⟨"invalid_type", [], msg⟩
  | .gt b msg => if b < q then none else some ⟨"too_small", [], msg⟩
  | .gte b msg => if b ≤ q then none else some ⟨"too_small", [], msg⟩
  | .lte b msg => if q ≤ b then none else some ⟨"too_big", [], msg⟩

/-! ## Refinements

The refinement closures literally appearing in validators.ts. -/

/-- Keyed lookup on an object value; any other value and a missing
key read as undefined, exactly as JavaScript property access does. -/
def objGet (d : Value) (k : String) : Value :=
  match d with
  | .vObj kvs => (List.lookup k kvs).getD .vUndefined
  | _ => .vUndefined

/-- JavaScript strict equality restricted to the primitive values the
refinements of validators.ts ever compare (both password refinement
operands are already-validated strings, and the boolean refinements
compare against true); on object, array and Date operands JavaScript
compares references, which never arises in those refinements, so the
conservative answer false is returned there. -/
def jsStrictEq : Value → Value → Bool
  | .vUndefined, .vUndefined => true
  | .vNull, .vNull => true
  | .vBool a, .vBool b => a == b
  | .vNum a, .vNum b => a == b
  | .vStr a, .vStr b => a == b
  | _, _ => false

/-- Refinement predicates of validators.ts: the two password
confirmation closures and the accept-flag closures. -/
inductive RefineTest where
  /-- data[a] === data[b], the password confirmation refinement -/
  | fieldsEqual (a b : String)
  /-- v === true, the accept-terms and accept-privacy refinement -/
  | isTrue

/-- Evaluates a refinement predicate on the parsed value. -/
def evalRefineTest : RefineTest → Value → Bool
  | .fieldsEqual a b, d => jsStrictEq (objGet d a) (objGet d b)
  | .isTrue, v => jsStrictEq v (.vBool true)

/-! ## Schemas -/

mutual
/-- Deep embedding of the zod schema expressions occurring in
validators.ts.  brandTransform embeds the .transform casts used for
branded strings, which are identity functions at runtime; dateOrIso
embeds the DATE_VALIDATOR union z.date().or(ISO_DATETIME_VALIDATOR)
with the zod union semantics inlined (first branch, then second,
else an invalid_union issue). -/
inductive Schema where
  | string (checks : List StringCheck)
  | number (checks : List NumCheck)
  | boolean
  | date
  | any
  | unknown
  | literalFalse
  | enumOf (values : List String)
  | nativeEnumOf (values : List String)
  | obj (fields : FieldList)
  | array (elem : Schema) (minItems : Option (Nat × String))
  | record (valueSchema : Schema)
  | dateOrIso
  | optional (inner : Schema)
  | brandTransform (inner : Schema)
  | refine (inner : Schema) (test : RefineTest) (message : String) (path : List String)

/-- Shape of a z.object schema: an ordered list of named field
schemas. -/
inductive FieldList where
  | fnil
  | fcons (name : String) (s : Schema) (rest : FieldList)
end

/-- Names of the fields of an object shape, in order. -/
def fnames : FieldList → List String
  | .fnil => []
  | .fcons n _ rest => n :: fnames rest

mutual
/-- Well-formedness of a schema: every object shape binds each field
name at most once.  Object literals in the TypeScript source cannot
repeat a key, so every schema of validators.ts is well formed; the
property is what makes repeated validation stable. -/
def wfS : Schema → Bool
  | .string _ => true
  | .number _ => true
  | .boolean => true
  | .date => true
  | .any => true
  | .unknown => true
  | .literalFalse => true
  | .enumOf _ => true
  | .nativeEnumOf _ => true
  | .obj fl => wfF fl
  | .array elem _ => wfS elem
  | .record s => wfS s
  | .dateOrIso => true
  | .optional s => wfS s
  | .brandTransform s => wfS s
  | .refine inner _ _ _ => wfS inner

/-- Well-formedness of an object shape: the head name does not recur
and every field schema is well formed. -/
def wfF : FieldList → Bool
  | .fnil => true
  | .fcons n s rest => !(fnames rest).contains n && wfS s && wfF rest
end

/-- Parses every element of an array with the element schema,
collecting the issues of failed elements (paths prefixed with the
element index) and the parsed values of successful ones, in order. -/
def collectItems (f : Value → Except ZodError Value) : Nat → List Value → List ZodIssue × List Value
  | _, [] => ([], [])
  | i, x :: xs =>
    let (is, ds) := collectItems f (i + 1) xs
    match f x with
    | .ok d => (is, d :: ds)
    | .error e => (e.issues.map (prefixIssue (.idx i)) ++ is, ds)

/-- Parses every property value of a record with the value schema,
collecting issues (paths prefixed with the property key) and the
parsed properties, preserving key order. -/
def collectRecord (f : Value → Except ZodError Value) : List (String × Value) → List ZodIssue × List (String × Value)
  | [] => ([], [])
  | (k, w) :: rest =>
    let (is, ds) := collectRecord f rest
    match f w with
    | .ok d => (is, (k, d) :: ds)
    | .error e => (e.issues.map (prefixIssue (.key k)) ++ is, ds)

mutual
/-- Applies a schema to a value: the synchronous zod parse pipeline.
The result is total — every zod schema of validators.ts either
produces a parsed value or a ZodError — with the error carrying all
collected issues. -/
def runSchema : Schema → Value → Except ZodError Value
  | .string checks => fun v =>
    match v with
    | .vStr str =>
      match checks.filterMap (runStringCheck str) with
      | [] => .ok (.vStr str)
      | i :: is => .error ⟨i :: is⟩
    | v => .error ⟨[invalidTypeIssue "string" v]⟩
  | .number checks => fun v =>
    match v with
    | .vNum q =>
      match checks.filterMap (runNumCheck q) with
      | [] => .ok (.vNum q)
      | i :: is => .error ⟨i :: is⟩
    | v => .error ⟨[invalidTypeIssue "number" v]⟩
  | .boolean => fun v =>
    match v with
    | .vBool b => .ok (.vBool b)
    | v => .error ⟨[invalidTypeIssue "boolean" v]⟩
  | .date => fun v =>
    match v with
    | .vDate ms => .ok (.vDate ms)
    | v => .error ⟨[invalidTypeIssue "date" v]⟩
  | .any => fun v => .ok v
  | .unknown => fun v => .ok v
  | .literalFalse => fun v =>
    match v with
    | .vBool false => .ok (.vBool false)
    | v => .error ⟨[⟨"invalid_literal", [], "Invalid literal value, expected false"⟩]⟩
  | .enumOf values => fun v =>
    match v with
    | .vStr str =>
      if values.contains str then .ok (.vStr str)
      else .error ⟨[⟨"invalid_enum_value", [], "Invalid enum value"⟩]⟩
    | v => .error ⟨[invalidTypeIssue "string" v]⟩
  | .nativeEnumOf values => fun v =>
    match v with
    | .vStr str =>
      if values.contains str then .ok (.vStr str)
      else .error ⟨[⟨"invalid_enum_value", [], "Invalid enum value"⟩]⟩
    | v => .error ⟨[⟨"invalid_enum_value", [], "Invalid enum value"⟩]⟩
  | .obj fl => fun v =>
    match v with
    | .vObj kvs =>
      match runFields fl kvs with
      | ([], outs) => .ok (.vObj outs)
      | (i :: is, _) => .error ⟨i :: is⟩
    | v => .error ⟨[invalidTypeIssue "object" v]⟩
  | .array elem minC => fun v =>
    match v with
    | .vArr items =>
      let sizeIssues : List ZodIssue :=
        match minC with
        | some (n, msg) => if items.length < n then [⟨"too_small", [], msg⟩] else []
        | none => []
      match sizeIssues ++ (collectItems (runSchema elem) 0 items).1 with
      | [] => .ok (.vArr (collectItems (runSchema elem) 0 items).2)
      | i :: is => .error ⟨i :: is⟩
    | v => .error ⟨[invalidTypeIssue "array" v]⟩
  | .record valueSchema => fun v =>
    match v with
    | .vObj kvs =>
      match collectRecord (runSchema valueSchema) kvs with
      | ([], outs) => .ok (.vObj outs)
      | (i :: is, _) => .error ⟨i :: is⟩
    | v => .error ⟨[invalidTypeIssue "object" v]⟩
  | .dateOrIso => fun v =>
    match v with
    | .vDate ms => .ok (.vDate ms)
    | .vStr str =>
      if isoDatetimeCheck str then .ok (.vStr str)
      else .error ⟨[⟨"invalid_union", [], "Invalid input"⟩]⟩
    | v => .error ⟨[⟨"invalid_union", [], "Invalid input"⟩]⟩
  | .optional inner => fun v =>
    match v with
    | .vUndefined => .ok .vUndefined
    | v => runSchema inner v
  | .brandTransform inner => fun v => runSchema inner v
  | .refine inner test msg path => fun v =>
    match runSchema inner v with
    | .ok d =>
      if evalRefineTest test d then .ok d
      else .error ⟨[⟨"custom", path.map PathKey.key, msg⟩]⟩
    | .error e => .error e

/-- Parses an object against a shape, zod strip mode: every shape
field is looked up by key (undefined when absent); issues of failing
fields are collected, prefixed with the field name, in shape order;
on full success the output object holds the shape fields in shape
order, omitting a field whose parsed value is undefined and whose key
was absent from the input; unknown input keys are dropped silently. -/
def runFields : FieldList → List (String × Value) → List ZodIssue × List (String × Value)
  | .fnil => fun _ => ([], [])
  | .fcons n s rest => fun kvs =>
    let entry := List.lookup n kvs
    let (restIssues, restOut) := runFields rest kvs
    match runSchema s (entry.getD .vUndefined) with
    | .ok dv =>
      (restIssues, if dv.isUndef && entry.isNone then restOut else (n, dv) :: restOut)
    | .error e => (e.issues.map (prefixIssue (.key n)) ++ restIssues, restOut)
end

/-! ## Default zod check constructors

Helpers producing a check together with the default English message
zod interpolates when the call site passes no custom message. -/

/-- z.string().min(n) with the default message. -/
def zStrMin (n : Nat) : StringCheck :=
  .min n ("String must contain at least " ++ toString n ++ " character(s)")

/-- z.string().max(n) with the default message. -/
def zStrMax (n : Nat) : StringCheck :=
  .max n ("String must contain at most " ++ toString n ++ " character(s)")

/-- z.number().int() with the default message. -/
def zInt : NumCheck := .int "Expected integer, received float"

/-- z.number().positive() with the default message. -/
def zPositive : NumCheck := .gt 0 "Number must be greater than 0"

/-- z.number().nonnegative() with the default message. -/
def zNonneg : NumCheck := .gte 0 "Number must be greater than or equal to 0"

/-- z.number().min(1) with the default message. -/
def zMin1 : NumCheck := .gte 1 "Number must be greater than or equal to 1"

/-- z.number().max(5) with the default message. -/
def zMax5 : NumCheck := .lte 5 "Number must be less than or equal to 5"

/-- z.number().max(100) with the default message. -/
def zMax100 : NumCheck := .lte 100 "Number must be less than or equal to 100"

/-- Builds an object shape from a list of named field schemas. -/
def fieldsOf : List (String × Schema) → FieldList
  | [] => .fnil
  | (n, s) :: rest => .fcons n s (fieldsOf rest)

/-! ## Domain enum value sets

String values of the TypeScript enums referenced by z.nativeEnum in
validators.ts, transcribed from auth.ts, user.ts, organization.ts,
product.ts, billing.ts, api.ts and primitives.ts. -/

def AuthMethodValues : List String :=
  ["email", "google", "github", "microsoft", "saml", "oidc"]

def UserRoleValues : List String :=
  ["super_admin", "admin", "owner", "manager", "member", "viewer", "guest"]

def PermissionValues : List String :=
  ["org:create", "org:read", "org:update", "org:delete", "org:invite", "org:settings",
   "user:create", "user:read", "user:update", "user:delete", "user:role:manage",
   "product:create", "product:read", "product:update", "product:delete", "product:publish",
   "billing:read", "billing:update", "billing:invoice",
   "team:create", "team:read", "team:update", "team:delete", "team:invite",
   "settings:read", "settings:update", "settings:integrations",
   "analytics:read", "analytics:export",
   "audit:read", "audit:export"]

def AccountStatusValues : List String :=
  ["active", "inactive", "suspended", "deleted", "pending_verification", "pending_invitation"]

def NotificationChannelValues : List String :=
  ["email", "sms", "in_app", "webhook", "slack", "teams"]

def OrganizationPlanValues : List String :=
  ["free", "starter", "professional", "enterprise", "custom"]

def OrganizationStatusValues : List String :=
  ["active", "inactive", "suspended", "deleted"]

def BillingPeriodValues : List String :=
  ["monthly", "yearly", "custom"]

def ProductStatusValues : List String :=
  ["draft", "in_development", "beta", "released", "deprecated", "archived", "discontinued"]

def FeatureTierValues : List String :=
  ["free", "starter", "professional", "enterprise", "all"]

def SubscriptionStatusValues : List String :=
  ["active", "trial", "past_due", "paused", "canceled", "expired", "pending"]

def BillingCycleValues : List String :=
  ["monthly", "quarterly", "annually", "custom"]

def PaymentStatusValues : List String :=
  ["pending", "processing", "completed", "failed", "refunded", "disputed"]

def InvoiceStatusValues : List String :=
  ["draft", "sent", "viewed", "partial_paid", "paid", "overdue", "canceled", "refunded"]

def HTTPMethodValues : List String :=
  ["GET", "POST", "PUT", "PATCH", "DELETE", "HEAD", "OPTIONS"]

def SUPPORTED_LOCALES : List String :=
  ["en", "es", "fr", "de", "it", "ja", "zh", "ru"]

/-! ## Common validators (validators.ts lines 30 to 70) -/

def EMAIL_VALIDATOR : Schema := .string [.email "Invalid email format"]

def URL_VALIDATOR : Schema := .optional (.string [.url "Invalid URL format"])

def ISO_DATETIME_VALIDATOR : Schema := .brandTransform (.string [.datetime])

def UUID_VALIDATOR : Schema := .string [.uuid "Invalid UUID format"]

def DATE_VALIDATOR : Schema := .dateOrIso

def POSITIVE_NUMBER_VALIDATOR : Schema := .number [.gt 0 "Must be positive"]

def PERCENTAGE_VALIDATOR : Schema :=
  .number [zNonneg, .lte 100 "Must be between 0 and 100"]

def CURSOR_VALIDATOR : Schema :=
  .brandTransform (.string [.min 10 "Cursor must be at least 10 characters"])

def LOCALE_SCHEMA : Schema := .enumOf SUPPORTED_LOCALES

def HTTP_METHOD_SCHEMA : Schema := .nativeEnumOf HTTPMethodValues

/-- Factory for branded identifier schemas: a uuid-checked string
whose transform stamps the brand; the brand parameter is a type-level
tag only and is unused at runtime, exactly as in the source. -/
def createBrandedId (_brand : String) : Schema :=
  .brandTransform (.string [.uuid "Invalid UUID format"])

def REQUEST_ID_SCHEMA : Schema := createBrandedId "id:request"
def WEBHOOK_ID_SCHEMA : Schema := createBrandedId "id:webhook"
def WEBHOOK_DELIVERY_ID_SCHEMA : Schema := createBrandedId "id:webhook-delivery"
def FILE_UPLOAD_ID_SCHEMA : Schema := createBrandedId "id:file-upload"
def BATCH_ID_SCHEMA : Schema := createBrandedId "id:batch"
def BATCH_ITEM_ID_SCHEMA : Schema := createBrandedId "id:batch-item"
def USER_ID_SCHEMA : Schema := createBrandedId "id:user"
def ORGANIZATION_ID_SCHEMA : Schema := createBrandedId "id:organization"

/-! ## Auth validators -/

def AuthMethodSchema : Schema := .nativeEnumOf AuthMethodValues
def UserRoleSchema : Schema := .nativeEnumOf UserRoleValues
def PermissionSchema : Schema := .nativeEnumOf PermissionValues

def LoginCredentialsSchema : Schema := .obj (fieldsOf
  [("email", EMAIL_VALIDATOR),
   ("password", .string [.min 8 "Password must be at least 8 characters"]),
   ("rememberMe", .optional .boolean)])

def PasswordResetRequestSchema : Schema := .obj (fieldsOf
  [("email", EMAIL_VALIDATOR)])

/-- Inner object of PasswordResetConfirmSchema, before the
cross-field refinement. -/
def PasswordResetConfirmObject : Schema := .obj (fieldsOf
  [("token", .string [zStrMin 10]),
   ("newPassword", .string [.min 8 "Password must be at least 8 characters"]),
   ("confirmPassword", .string [zStrMin 8])])

def PasswordResetConfirmSchema : Schema :=
  .refine PasswordResetConfirmObject (.fieldsEqual "newPassword" "confirmPassword")
    "Passwords do not match" ["confirmPassword"]

def MFAVerificationSchema : Schema := .obj (fieldsOf
  [("code", .string [.regex .sixDigits "Code must be 6 digits"]),
   ("method", .enumOf ["totp", "sms", "email"]),
   ("rememberDevice", .optional .boolean)])

def APIKeySchema : Schema := .obj (fieldsOf
  [("name", .string [zStrMin 1, zStrMax 255]),
   ("permissions", .array PermissionSchema none),
   ("expiresAt", .optional DATE_VALIDATOR)])

/-! ## User validators -/

def AccountStatusSchema : Schema := .nativeEnumOf AccountStatusValues

def NotificationChannelSchema : Schema := .nativeEnumOf NotificationChannelValues

def NotificationPreferencesSchema : Schema := .obj (fieldsOf
  [("email", .obj (fieldsOf
     [("productUpdates", .boolean),
      ("securityAlerts", .boolean),
      ("billingNotifications", .boolean),
      ("teamInvitations", .boolean),
      ("weeklyDigest", .boolean)])),
   ("sms", .obj (fieldsOf
     [("enabled", .boolean),
      ("criticalAlertsOnly", .boolean)])),
   ("inApp", .obj (fieldsOf [("enabled", .boolean)])),
   ("slack", .optional (.obj (fieldsOf
     [("enabled", .boolean),
      ("webhookUrl", URL_VALIDATOR),
      ("channels", .array (.string []) none)]))),
   ("teams", .optional (.obj (fieldsOf
     [("enabled", .boolean),
      ("webhookUrl", URL_VALIDATOR)]))),
   ("timezone", .string []),
   ("language", LOCALE_SCHEMA)])

/-- Inner object of UserRegistrationSchema, before the cross-field
refinement. -/
def UserRegistrationObject : Schema := .obj (fieldsOf
  [("email", EMAIL_VALIDATOR),
   ("firstName", .string [zStrMin 1, zStrMax 100]),
   ("lastName", .string [zStrMin 1, zStrMax 100]),
   ("password", .string [.min 8 "Password must be at least 8 characters"]),
   ("confirmPassword", .string [zStrMin 8]),
   ("acceptTerms", .refine .boolean .isTrue "You must accept the terms" []),
   ("acceptPrivacy", .refine .boolean .isTrue "You must accept the privacy policy" []),
   ("companyName", .optional (.string [zStrMax 255])),
   ("timezone", .optional (.string [])),
   ("language", .optional LOCALE_SCHEMA)])

def UserRegistrationSchema : Schema :=
  .refine UserRegistrationObject (.fieldsEqual "password" "confirmPassword")
    "Passwords do not match" ["confirmPassword"]

def UpdateUserProfileSchema : Schema := .obj (fieldsOf
  [("firstName", .optional (.string [zStrMin 1, zStrMax 100])),
   ("lastName", .optional (.string [zStrMin 1, zStrMax 100])),
   ("avatar", .optional (.string [])),
   ("bio", .optional (.string [zStrMax 500])),
   ("title", .optional (.string [zStrMax 100])),
   ("department", .optional (.string [zStrMax 100])),
   ("company", .optional (.string [zStrMax 100])),
   ("location", .optional (.string [zStrMax 100])),
   ("phone", .optional (.string [.regex .phone "Invalid phone number format"])),
   ("timezone", .optional (.string [])),
   ("language", .optional LOCALE_SCHEMA)])

/-- Field list of UserProfileSchema, shared with UserSchema through
the zod extend call. -/
def userProfileShape : List (String × Schema) :=
  [("id", UUID_VALIDATOR),
   ("email", EMAIL_VALIDATOR),
   ("firstName", .string []),
   ("lastName", .string []),
   ("fullName", .string []),
   ("avatar", .optional (.string [])),
   ("avatarUrl", URL_VALIDATOR),
   ("bio", .optional (.string [])),
   ("title", .optional (.string [])),
   ("department", .optional (.string [])),
   ("company", .optional (.string [])),
   ("location", .optional (.string [])),
   ("phone", .optional (.string [])),
   ("timezone", .string []),
   ("language", LOCALE_SCHEMA),
   ("twoFactorEnabled", .boolean),
   ("emailVerified", .boolean),
   ("phoneVerified", .boolean),
   ("lastLogin", .optional DATE_VALIDATOR),
   ("createdAt", DATE_VALIDATOR),
   ("updatedAt", DATE_VALIDATOR)]

def UserProfileSchema : Schema := .obj (fieldsOf userProfileShape)

def UserSchema : Schema := .obj (fieldsOf (userProfileShape ++
  [("status", AccountStatusSchema),
   ("roles", .array UserRoleSchema none),
   ("permissions", .array PermissionSchema none),
   ("mfaConfig", .optional (.obj (fieldsOf
     [("enabled", .boolean),
      ("method", .enumOf ["totp", "sms", "email"]),
      ("secret", .optional (.string [])),
      ("phoneNumber", .optional (.string [])),
      ("backupCodes", .optional (.array (.string []) none)),
      ("verified", .boolean),
      ("createdAt", DATE_VALIDATOR)]))),
   ("notificationPreferences", NotificationPreferencesSchema),
   ("authenticatedWith", .array AuthMethodSchema none),
   ("isEmailVerified", .boolean),
   ("isPhoneVerified", .boolean),
   ("isSuperAdmin", .boolean),
   ("deletedAt", .optional DATE_VALIDATOR)]))

/-! ## Organization validators -/

def OrganizationPlanSchema : Schema := .nativeEnumOf OrganizationPlanValues
def OrganizationStatusSchema : Schema := .nativeEnumOf OrganizationStatusValues

def CreateOrganizationSchema : Schema := .obj (fieldsOf
  [("name", .string [zStrMin 1, zStrMax 255]),
   ("slug", .optional (.string [.regex .slug "Invalid slug format"])),
   ("description", .optional (.string [zStrMax 500])),
   ("website", URL_VALIDATOR),
   ("country", .optional (.string [.length 2])),
   ("timezone", .optional (.string [])),
   ("plan", .optional OrganizationPlanSchema)])

def UpdateOrganizationSchema : Schema := .obj (fieldsOf
  [("name", .optional (.string [zStrMin 1, zStrMax 255])),
   ("description", .optional (.string [zStrMax 500])),
   ("logo", .optional (.string [])),
   ("website", URL_VALIDATOR),
   ("email", .optional EMAIL_VALIDATOR),
   ("phone", .optional (.string [])),
   ("country", .optional (.string [.length 2])),
   ("state", .optional (.string [])),
   ("city", .optional (.string [])),
   ("address", .optional (.string [])),
   ("postalCode", .optional (.string [])),
   ("timezone", .optional (.string []))])

def OrganizationSchema : Schema := .obj (fieldsOf
  [("id", UUID_VALIDATOR),
   ("name", .string []),
   ("slug", .string []),
   ("description", .optional (.string [])),
   ("logo", .optional (.string [])),
   ("logoUrl", URL_VALIDATOR),
   ("website", URL_VALIDATOR),
   ("email", .optional EMAIL_VALIDATOR),
   ("phone", .optional (.string [])),
   ("country", .optional (.string [])),
   ("state", .optional (.string [])),
   ("city", .optional (.string [])),
   ("address", .optional (.string [])),
   ("postalCode", .optional (.string [])),
   ("timezone", .string []),
   ("plan", OrganizationPlanSchema),
   ("status", OrganizationStatusSchema),
   ("seats", .number [zInt, zPositive]),
   ("maxSeats", .number [zInt, zPositive]),
   ("features", .array (.string []) none),
   ("owner", .obj (fieldsOf
     [("id", UUID_VALIDATOR),
      ("email", EMAIL_VALIDATOR),
      ("firstName", .string []),
      ("lastName", .string [])])),
   ("members", .number [zInt, zNonneg]),
   ("teams", .number [zInt, zNonneg]),
   ("billingPeriod", .nativeEnumOf BillingPeriodValues),
   ("trialEndsAt", .optional DATE_VALIDATOR),
   ("createdAt", DATE_VALIDATOR),
   ("updatedAt", DATE_VALIDATOR)])

/-! ## Product validators -/

def ProductStatusSchema : Schema := .nativeEnumOf ProductStatusValues

def CreateProductSchema : Schema := .obj (fieldsOf
  [("name", .string [zStrMin 1, zStrMax 255]),
   ("slug", .optional (.string [.regex .slug "Invalid"])),
   ("description", .string [zStrMin 10, zStrMax 2000]),
   ("category", .optional (.string [])),
   ("tags", .optional (.array (.string []) none))])

def CreateFeatureSchema : Schema := .obj (fieldsOf
  [("name", .string [zStrMin 1, zStrMax 255]),
   ("slug", .optional (.string [.regex .slug "Invalid"])),
   ("description", .string [zStrMin 10]),
   ("tier", .nativeEnumOf FeatureTierValues),
   ("priority", .number [zInt, zMin1, zMax5]),
   ("epic", .optional UUID_VALIDATOR),
   ("acceptanceCriteria", .optional (.array (.string []) none))])

/-! ## Billing validators -/

def SubscriptionStatusSchema : Schema := .nativeEnumOf SubscriptionStatusValues
def PaymentStatusSchema : Schema := .nativeEnumOf PaymentStatusValues
def InvoiceStatusSchema : Schema := .nativeEnumOf InvoiceStatusValues

def CreateSubscriptionSchema : Schema := .obj (fieldsOf
  [("planId", UUID_VALIDATOR),
   ("billingCycle", .nativeEnumOf BillingCycleValues),
   ("paymentMethodId", .optional UUID_VALIDATOR),
   ("trialDays", .optional (.number [zInt, zPositive])),
   ("discountCode", .optional (.string [])),
   ("metadata", .optional (.record .any))])

def UpdateSubscriptionSchema : Schema := .obj (fieldsOf
  [("planId", .optional UUID_VALIDATOR),
   ("billingCycle", .optional (.nativeEnumOf BillingCycleValues)),
   ("autoRenew", .optional .boolean),
   ("paymentMethodId", .optional UUID_VALIDATOR),
   ("metadata", .optional (.record .any))])

def PricingPlanSchema : Schema := .obj (fieldsOf
  [("id", UUID_VALIDATOR),
   ("name", .string []),
   ("slug", .string []),
   ("description", .string []),
   ("features", .array (.string []) none),
   ("price", .obj (fieldsOf
     [("amount", POSITIVE_NUMBER_VALIDATOR),
      ("currency", .string [.length 3]),
      ("interval", .nativeEnumOf BillingCycleValues)])),
   ("setupFee", .optional POSITIVE_NUMBER_VALIDATOR),
   ("tier", .enumOf ["free", "starter", "professional", "enterprise"]),
   ("maxUsers", .optional (.number [zInt, zPositive])),
   ("maxProjects", .optional (.number [zInt, zPositive])),
   ("maxStorage", .optional (.number [zInt, zPositive])),
   ("maxApiCalls", .optional (.number [zInt, zPositive])),
   ("supportLevel", .enumOf ["community", "standard", "premium", "enterprise"]),
   ("slaUptimePercent", .optional PERCENTAGE_VALIDATOR),
   ("isPublic", .boolean),
   ("createdAt", DATE_VALIDATOR),
   ("updatedAt", DATE_VALIDATOR)])

/-! ## API validators -/

def ListQueryParamsSchema : Schema := .obj (fieldsOf
  [("page", .optional (.number [zInt, zPositive])),
   ("pageSize", .optional (.number [zInt, zPositive, zMax100])),
   ("offset", .optional (.number [zInt, zNonneg])),
   ("limit", .optional (.number [zInt, zPositive, zMax100])),
   ("search", .optional (.string [])),
   ("sortBy", .optional (.string [])),
   ("sortOrder", .optional (.enumOf ["asc", "desc"])),
   ("filter", .optional (.record .any)),
   ("include", .optional (.array (.string []) none)),
   ("exclude", .optional (.array (.string []) none)),
   ("cursor", .optional CURSOR_VALIDATOR)])

def FileUploadSchema : Schema := .obj (fieldsOf
  [("id", FILE_UPLOAD_ID_SCHEMA),
   ("name", .string []),
   ("mimeType", .string []),
   ("size", .number [zInt, zPositive]),
   ("url", .string [.url "Invalid url"]),
   ("uploadedAt", ISO_DATETIME_VALIDATOR),
   ("uploadedBy", USER_ID_SCHEMA),
   ("metadata", .optional (.obj (fieldsOf
     [("width", .optional (.number [zInt, zPositive])),
      ("height", .optional (.number [zInt, zPositive])),
      ("duration", .optional (.number [zPositive]))])))])

def WebhookPayloadSchema : Schema := .obj (fieldsOf
  [("id", WEBHOOK_ID_SCHEMA),
   ("event", .string []),
   ("timestamp", ISO_DATETIME_VALIDATOR),
   ("data", .record .unknown),
   ("previousData", .optional (.record .unknown)),
   ("organizationId", ORGANIZATION_ID_SCHEMA),
   ("userId", .optional USER_ID_SCHEMA),
   ("metadata", .optional (.record .unknown))])

def WebhookConfigSchema : Schema := .obj (fieldsOf
  [("id", WEBHOOK_ID_SCHEMA),
   ("organizationId", ORGANIZATION_ID_SCHEMA),
   ("url", .string [.url "Invalid url"]),
   ("events", .array (.string []) (some (1, "Array must contain at least 1 element(s)"))),
   ("secret", .string [zStrMin 32]),
   ("headers", .optional (.record (.string []))),
   ("isActive", .boolean),
   ("retryPolicy", .optional (.obj (fieldsOf
     [("maxRetries", .number [zInt, zPositive]),
      ("backoffMultiplier", POSITIVE_NUMBER_VALIDATOR),
      ("initialDelayMs", .number [zInt, zPositive])]))),
   ("lastTriggeredAt", .optional ISO_DATETIME_VALIDATOR),
   ("createdAt", ISO_DATETIME_VALIDATOR),
   ("updatedAt", ISO_DATETIME_VALIDATOR)])

def WebhookDeliverySchema : Schema := .obj (fieldsOf
  [("id", WEBHOOK_DELIVERY_ID_SCHEMA),
   ("webhookId", WEBHOOK_ID_SCHEMA),
   ("event", .string []),
   ("payload", WebhookPayloadSchema),
   ("statusCode", .optional (.number [zInt])),
   ("response", .optional (.string [])),
   ("error", .optional (.string [])),
   ("retryCount", .number [zInt, zNonneg]),
   ("nextRetryAt", .optional ISO_DATETIME_VALIDATOR),
   ("deliveredAt", .optional ISO_DATETIME_VALIDATOR),
   ("timestamp", ISO_DATETIME_VALIDATOR)])

def RequestContextSchema : Schema := .obj (fieldsOf
  [("requestId", REQUEST_ID_SCHEMA),
   ("userId", .optional USER_ID_SCHEMA),
   ("organizationId", .optional ORGANIZATION_ID_SCHEMA),
   ("ipAddress", .string []),
   ("userAgent", .string []),
   ("origin", .optional (.string [])),
   ("timestamp", ISO_DATETIME_VALIDATOR)])

def BatchRequestItemSchema : Schema := .obj (fieldsOf
  [("id", BATCH_ITEM_ID_SCHEMA),
   ("method", HTTP_METHOD_SCHEMA),
   ("path", .string []),
   ("body", .optional .unknown),
   ("headers", .optional (.record (.string [])))])

def BatchRequestSchema : Schema := .obj (fieldsOf
  [("id", BATCH_ID_SCHEMA),
   ("requests", .array BatchRequestItemSchema none)])

def BatchResponseItemSchema : Schema := .obj (fieldsOf
  [("id", BATCH_ITEM_ID_SCHEMA),
   ("status", .number [zInt]),
   ("body", .unknown),
   ("headers", .optional (.record (.string [])))])

def BatchResponseSchema : Schema := .obj (fieldsOf
  [("id", BATCH_ID_SCHEMA),
   ("responses", .array BatchResponseItemSchema none),
   ("timestamp", ISO_DATETIME_VALIDATOR)])

/-! ## Error validators -/

def ValidationErrorSchema : Schema := .obj (fieldsOf
  [("field", .string []),
   ("message", .string []),
   ("code", .string []),
   ("value", .optional .any),
   ("constraint", .optional (.string []))])

def ErrorResponseSchema : Schema := .obj (fieldsOf
  [("success", .literalFalse),
   ("status", .number [zInt]),
   ("error", .obj (fieldsOf
     [("code", .string []),
      ("message", .string []),
      ("details", .optional (.record .any)),
      ("fieldErrors", .optional (.array ValidationErrorSchema none)),
      ("suggestion", .optional (.string []))])),
   ("timestamp", ISO_DATETIME_VALIDATOR),
   ("requestId", .optional REQUEST_ID_SCHEMA),
   ("path", .optional (.string [])),
   ("method", .optional (.string []))])

/-! ## Registry and derived validators -/

/-- Schema registry of validators.ts lines 521 to 550: the ordered
name-to-schema mapping that is the public contract surface. -/
def SCHEMA_REGISTRY : List (String × Schema) :=
  [("loginCredentials", LoginCredentialsSchema),
   ("passwordResetRequest", PasswordResetRequestSchema),
   ("passwordResetConfirm", PasswordResetConfirmSchema),
   ("mfaVerification", MFAVerificationSchema),
   ("apiKey", APIKeySchema),
   ("userRegistration", UserRegistrationSchema),
   ("updateUserProfile", UpdateUserProfileSchema),
   ("userProfile", UserProfileSchema),
   ("user", UserSchema),
   ("createOrganization", CreateOrganizationSchema),
   ("updateOrganization", UpdateOrganizationSchema),
   ("organization", OrganizationSchema),
   ("createProduct", CreateProductSchema),
   ("createFeature", CreateFeatureSchema),
   ("createSubscription", CreateSubscriptionSchema),
   ("updateSubscription", UpdateSubscriptionSchema),
   ("pricingPlan", PricingPlanSchema),
   ("listQueryParams", ListQueryParamsSchema),
   ("fileUpload", FileUploadSchema),
   ("webhookPayload", WebhookPayloadSchema),
   ("webhookConfig", WebhookConfigSchema),
   ("webhookDelivery", WebhookDeliverySchema),
   ("requestContext", RequestContextSchema),
   ("batchRequestItem", BatchRequestItemSchema),
   ("batchRequest", BatchRequestSchema),
   ("batchResponseItem", BatchResponseItemSchema),
   ("batchResponse", BatchResponseSchema),
   ("errorResponse", ErrorResponseSchema)]

/-- Embeds schema.parse: the zod parse that on failure throws the
ZodError, modelled by the Except error branch.  Synchronous zod
parsing throws nothing but ZodError values, so this Except is the
complete behavior. -/
def schemaParse (schema : Schema) (data : Value) : Except ZodError Value :=
  runSchema schema data

/-- Embeds schema.safeParse: the tagged result the zod engine
returns without throwing. -/
def schemaSafeParse (schema : Schema) (data : Value) : ParseResult :=
  match runSchema schema data with
  | .ok d => .success d
  | .error e => .failure e

/-- Record of the three operations createValidator derives for one
schema. -/
structure Validator where
  parse : Value → ParseResult
  validate : Value → Except ZodError Value
  safeParse : Value → ParseResult

/-- Translation of createValidator (validators.ts lines 555 to 581):
parse wraps the throwing schema.parse in a try/catch that converts a
ZodError into a tagged failure (the re-throw branch for non-ZodError
exceptions is unreachable, because synchronous zod parsing only
throws ZodError); validate re-raises, i.e. returns the Except as is;
safeParse delegates to the zod safeParse. -/
def createValidator (schema : Schema) : Validator :=
  { parse := fun data =>
      match schemaParse schema data with
      | .ok parsedData => .success parsedData
      | .error e => .failure e
    validate := fun data => schemaParse schema data
    safeParse := fun data => schemaSafeParse schema data }

/-- Translation of VALIDATORS (validators.ts lines 587 to 591): one
derived validator per registry entry, produced mechanically by
mapping createValidator over the registry entries. -/
def VALIDATORS : List (String × Validator) :=
  SCHEMA_REGISTRY.map (fun p => (p.1, createValidator p.2))

/-- JavaScript property access VALIDATORS[name]: some validator when
the name is a key, and none — modelling the undefined value whose
subsequent use is an unrecoverable TypeError, not a tagged failure
result — otherwise. -/
def lookupValidator (name : String) : Option Validator :=
  List.lookup name VALIDATORS

/-- JavaScript property access SCHEMA_REGISTRY[name], with none
modelling undefined as above. -/
def lookupSchema (name : String) : Option Schema :=
  List.lookup name SCHEMA_REGISTRY

/-- Translation of the brand helper of primitives.ts lines 61 to 62:
the escape hatch that stamps a string with a brand; the brand
argument is type-level only and at runtime the value is returned
unchanged, with no validation of any kind. -/
def brand (value : String) (_brand : String) : String :=
  value

/-- Collection of the eight branded identifier schemas derived from
createBrandedId, used to quantify over identifier fields. -/
def IDENTIFIER_SCHEMAS : List Schema :=
  [REQUEST_ID_SCHEMA, WEBHOOK_ID_SCHEMA, WEBHOOK_DELIVERY_ID_SCHEMA,
   FILE_UPLOAD_ID_SCHEMA, BATCH_ID_SCHEMA, BATCH_ITEM_ID_SCHEMA,
   USER_ID_SCHEMA, ORGANIZATION_ID_SCHEMA]

/-- Specification-level description of a syntactically valid UUID
string: five dash-separated groups of hexadecimal digits of lengths
8, 4, 4, 4 and 12. -/
def IsUuidShape (s : String) : Prop :=
  ∃ g1 g2 g3 g4 g5 : List Char,
    s.data = g1 ++ ('-' :: (g2 ++ ('-' :: (g3 ++ ('-' :: (g4 ++ ('-' :: g5))))))) ∧
    g1.length = 8 ∧ g2.length = 4 ∧ g3.length = 4 ∧ g4.length = 4 ∧ g5.length = 12 ∧
    (g1 ++ g2 ++ g3 ++ g4 ++ g5).all isHexChar = true

/-! ## General lemmas about the parse pipeline -/

/-- Every ZodError produced by a schema carries at least one issue. -/
theorem runSchema_error_ne_nil : ∀ (s : Schema) (v : Value) (e : ZodError),
    runSchema s v = .error e → e.issues ≠ []
  | .string checks, v, e, h => by
    rcases v with _ | _ | b | q | str | ms | items | kvs <;>
      simp only [runSchema] at h <;> (try split at h) <;> cases h <;> simp
  | .number checks, v, e, h => by
    rcases v with _ | _ | b | q | str | ms | items | kvs <;>
      simp only [runSchema] at h <;> (try split at h) <;> cases h <;> simp
  | .boolean, v, e, h => by
    rcases v with _ | _ | b | q | str | ms | items | kvs <;>
      simp only [runSchema] at h <;> cases h <;> simp
  | .date, v, e, h => by
    rcases v with _ | _ | b | q | str | ms | items | kvs <;>
      simp only [runSchema] at h <;> cases h <;> simp
  | .any, v, e, h => by simp only [runSchema] at h; cases h
  | .unknown, v, e, h => by simp only [runSchema] at h; cases h
  | .literalFalse, v, e, h => by
    rcases v with _ | _ | b | q | str | ms | items | kvs <;>
      (try rcases b with _ | _) <;>
      simp only [runSchema] at h <;> (try split at h) <;> cases h <;> simp
  | .enumOf values, v, e, h => by
    rcases v with _ | _ | b | q | str | ms | items | kvs <;>
      simp only [runSchema] at h <;> (try split at h) <;> cases h <;> simp
  | .nativeEnumOf values, v, e, h => by
    rcases v with _ | _ | b | q | str | ms | items | kvs <;>
      simp only [runSchema] at h <;> (try split at h) <;> cases h <;> simp
  | .obj fl, v, e, h => by
    rcases v with _ | _ | b | q | str | ms | items | kvs <;>
      simp only [runSchema] at h <;> (try split at h) <;> cases h <;> simp
  | .array elem minC, v, e, h => by
    rcases v with _ | _ | b | q | str | ms | items | kvs <;>
      simp only [runSchema] at h <;> (try split at h) <;> cases h <;> simp
  | .record valueSchema, v, e, h => by
    rcases v with _ | _ | b | q | str | ms | items | kvs <;>
      simp only [runSchema] at h <;> (try split at h) <;> cases h <;> simp
  | .dateOrIso, v, e, h => by
    rcases v with _ | _ | b | q | str | ms | items | kvs <;>
      simp only [runSchema] at h <;> (try split at h) <;> cases h <;> simp
  | .optional inner, v, e, h => by
    rcases v with _ | _ | b | q | str | ms | items | kvs <;>
      simp only [runSchema] at h
    case vUndefined => cases h
    case vNull => exact runSchema_error_ne_nil inner _ _ h
    case vBool => exact runSchema_error_ne_nil inner _ _ h
    case vNum => exact runSchema_error_ne_nil inner _ _ h
    case vStr => exact runSchema_error_ne_nil inner _ _ h
    case vDate => exact runSchema_error_ne_nil inner _ _ h
    case vArr => exact runSchema_error_ne_nil inner _ _ h
    case vObj => exact runSchema_error_ne_nil inner _ _ h
  | .brandTransform inner, v, e, h => by
    simp only [runSchema] at h
    exact runSchema_error_ne_nil inner _ _ h
  | .refine inner test msg path, v, e, h => by
    simp only [runSchema] at h
    split at h
    case _ d hd =>
      split at h
      · cases h
      · cases h; simp
    case _ e2 he2 =>
      cases h
      exact runSchema_error_ne_nil inner _ _ he2

/-- Consuming digits leaves a suffix of the input. -/
theorem takeDigits_suffix : ∀ (n : Nat) (cs rest : List Char),
    takeDigits n cs = some rest → rest <:+ cs
  | 0, cs, rest, h => by
    simp only [takeDigits] at h; cases h; exact List.suffix_rfl
  | n + 1, c :: cs, rest, h => by
    simp only [takeDigits] at h
    split at h
    · exact (takeDigits_suffix n cs rest h).trans (List.suffix_cons c cs)
    · cases h
  | n + 1, [], rest, h => by simp [takeDigits] at h

/-- Consuming one expected character leaves a suffix of the input. -/
theorem expectChar_suffix (c : Char) : ∀ (cs rest : List Char),
    expectChar c cs = some rest → rest <:+ cs
  | d :: cs, rest, h => by
    simp only [expectChar] at h
    split at h
    · cases h; exact List.suffix_cons d cs
    · cases h
  | [], rest, h => by simp [expectChar] at h

/-- Consuming the optional fractional part leaves a suffix of the
input. -/
theorem fracPart_suffix : ∀ (cs rest : List Char),
    fracPart cs = some rest → rest <:+ cs := by
  intro cs rest h
  unfold fracPart at h
  split at h
  case _ cs1 =>
    split at h
    · cases h
    · cases h
      exact (List.dropWhile_suffix _).trans (List.suffix_cons _ cs1)
  case _ =>
    cases h; exact List.suffix_rfl

/-- Matching the expected character against the whole remainder
forces that remainder to be exactly that character. -/
theorem expectChar_some_nil (c : Char) : ∀ (cs : List Char),
    expectChar c cs = some [] → cs = [c]
  | d :: cs, h => by
    simp only [expectChar] at h
    split at h
    · cases h; simp_all
    · cases h
  | [], h => by simp [expectChar] at h

/-- A string accepted by the zod datetime pattern ends in the
literal letter Z: its timezone designator is always Z, never a
numeric offset. -/
theorem isoCheck_endsWithZ (s : String) (h : isoDatetimeCheck s = true) :
    ∃ pre : List Char, s.data = pre ++ ['Z'] := by
  unfold isoDatetimeCheck at h
  split at h
  case _ rest heq =>
    rcases hz : expectChar 'Z' rest with _ | rest2
    case none => rw [hz] at h; simp at h
    case some =>
      rcases rest2 with _ | ⟨a, l⟩
      case cons => rw [hz] at h; simp at h
      rw [Option.bind_eq_some] at heq
      obtain ⟨m1, heq, s12⟩ := heq
      rw [Option.bind_eq_some] at heq
      obtain ⟨m2, heq, s11⟩ := heq
      rw [Option.bind_eq_some] at heq
      obtain ⟨m3, heq, s10⟩ := heq
      rw [Option.bind_eq_some] at heq
      obtain ⟨m4, heq, s9⟩ := heq
      rw [Option.bind_eq_some] at heq
      obtain ⟨m5, heq, s8⟩ := heq
      rw [Option.bind_eq_some] at heq
      obtain ⟨m6, heq, s7⟩ := heq
      rw [Option.bind_eq_some] at heq
      obtain ⟨m7, heq, s6⟩ := heq
      rw [Option.bind_eq_some] at heq
      obtain ⟨m8, heq, s5⟩ := heq
      rw [Option.bind_eq_some] at heq
      obtain ⟨m9, heq, s4⟩ := heq
      rw [Option.bind_eq_some] at heq
      obtain ⟨m10, heq, s3⟩ := heq
      rw [Option.bind_eq_some] at heq
      obtain ⟨m11, heq, s2⟩ := heq
      have hsuf : rest <:+ s.data :=
        (((((((((((fracPart_suffix _ _ s12).trans
          (takeDigits_suffix _ _ _ s11)).trans
          (expectChar_suffix _ _ _ s10)).trans
          (takeDigits_suffix _ _ _ s9)).trans
          (expectChar_suffix _ _ _ s8)).trans
          (takeDigits_suffix _ _ _ s7)).trans
          (expectChar_suffix _ _ _ s6)).trans
          (takeDigits_suffix _ _ _ s5)).trans
          (expectChar_suffix _ _ _ s4)).trans
          (takeDigits_suffix _ _ _ s3)).trans
          (expectChar_suffix _ _ _ s2)).trans
          (takeDigits_suffix _ _ _ heq)
      have hrest : rest = ['Z'] := expectChar_some_nil _ _ hz
      rw [hrest] at hsuf
      obtain ⟨pre, hp⟩ := hsuf
      exact ⟨pre, hp.symm⟩
  case _ =>
    cases h

/-- Consuming a block of hexadecimal characters of the right length
succeeds and leaves exactly the rest. -/
theorem takeHex_all : ∀ (g rest : List Char), g.all isHexChar = true →
    takeHex g.length (g ++ rest) = some rest
  | [], rest, _ => rfl
  | c :: g, rest, h => by
    simp only [List.all_cons, Bool.and_eq_true] at h
    simp only [List.length_cons, List.cons_append, takeHex, h.1, if_true]
    exact takeHex_all g rest h.2

/-- Instance of takeHex_all stated with an explicit numeral length. -/
theorem takeHex_all_n (n : Nat) (g rest : List Char) (hl : g.length = n)
    (hh : g.all isHexChar = true) : takeHex n (g ++ rest) = some rest :=
  hl ▸ takeHex_all g rest hh

/-- Binding a some is function application. -/
theorem some_bind_eq {α β : Type} (a : α) (f : α → Option β) :
    (some a).bind f = f a := rfl

/-- Consuming the expected character from a list starting with it
succeeds. -/
theorem expectChar_cons_self (c : Char) (cs : List Char) :
    expectChar c (c :: cs) = some cs := by simp [expectChar]

/-- A string of the UUID shape passes the zod uuid pattern. -/
theorem uuidCheck_of_shape (str : String) (h : IsUuidShape str) :
    uuidCheck str = true := by
  obtain ⟨g1, g2, g3, g4, g5, hdata, l1, l2, l3, l4, l5, hhex⟩ := h
  simp only [List.all_append, Bool.and_eq_true] at hhex
  obtain ⟨⟨⟨⟨h1, h2⟩, h3⟩, h4⟩, h5⟩ := hhex
  have e5 : takeHex 12 g5 = some [] := by
    have t := takeHex_all_n 12 g5 [] l5 h5
    rwa [List.append_nil] at t
  unfold uuidCheck
  rw [hdata, takeHex_all_n 8 g1 _ l1 h1, some_bind_eq, expectChar_cons_self,
    some_bind_eq, takeHex_all_n 4 g2 _ l2 h2, some_bind_eq, expectChar_cons_self,
    some_bind_eq, takeHex_all_n 4 g3 _ l3 h3, some_bind_eq, expectChar_cons_self,
    some_bind_eq, takeHex_all_n 4 g4 _ l4 h4, some_bind_eq, expectChar_cons_self,
    some_bind_eq, e5]

/-! ## Idempotence of validation

Every transform in validators.ts is an identity cast and every
refinement is a pure predicate on the parsed value, so feeding a
successful output back through its schema succeeds with the same
value.  The lemmas below prove this by structural induction. -/

/-- When an array parse produced no issues, the output has one
element per input element. -/
theorem collectItems_len (f : Value → Except ZodError Value)
    (hne : ∀ v e, f v = .error e → e.issues ≠ []) :
    ∀ (items : List Value) (i : Nat) (outs : List Value),
      collectItems f i items = ([], outs) → outs.length = items.length
  | [], i, outs, h => by
    simp only [collectItems] at h; cases h; rfl
  | x :: xs, i, outs, h => by
    simp only [collectItems] at h
    rcases hr : collectItems f (i + 1) xs with ⟨is, ds⟩
    rw [hr] at h
    rcases hx : f x with e | d
    · rw [hx] at h
      have h1 : e.issues.map (prefixIssue (.idx i)) ++ is = [] := congrArg Prod.fst h
      rcases List.append_eq_nil.mp h1 with ⟨hmap, _⟩
      exact absurd (List.map_eq_nil_iff.mp hmap) (hne x e hx)
    · rw [hx] at h
      rw [Prod.mk.injEq] at h
      obtain ⟨his, houts⟩ := h
      subst his
      subst houts
      simp [collectItems_len f hne xs (i + 1) ds hr]

/-- Element-wise idempotence lifts to array parsing. -/
theorem collectItems_idem (f : Value → Except ZodError Value)
    (hf : ∀ v d, f v = .ok d → f d = .ok d)
    (hne : ∀ v e, f v = .error e → e.issues ≠ []) :
    ∀ (items : List Value) (i : Nat) (outs : List Value),
      collectItems f i items = ([], outs) → collectItems f i outs = ([], outs)
  | [], i, outs, h => by
    simp only [collectItems] at h; cases h; rfl
  | x :: xs, i, outs, h => by
    simp only [collectItems] at h
    rcases hr : collectItems f (i + 1) xs with ⟨is, ds⟩
    rw [hr] at h
    rcases hx : f x with e | d
    · rw [hx] at h
      have h1 : e.issues.map (prefixIssue (.idx i)) ++ is = [] := congrArg Prod.fst h
      rcases List.append_eq_nil.mp h1 with ⟨hmap, _⟩
      exact absurd (List.map_eq_nil_iff.mp hmap) (hne x e hx)
    · rw [hx] at h
      rw [Prod.mk.injEq] at h
      obtain ⟨his, houts⟩ := h
      subst his
      subst houts
      have ih := collectItems_idem f hf hne xs (i + 1) ds hr
      simp only [collectItems, ih, hf x d hx]

/-- Value-wise idempotence lifts to record parsing. -/
theorem collectRecord_idem (f : Value → Except ZodError Value)
    (hf : ∀ v d, f v = .ok d → f d = .ok d)
    (hne : ∀ v e, f v = .error e → e.issues ≠ []) :
    ∀ (kvs outs : List (String × Value)),
      collectRecord f kvs = ([], outs) → collectRecord f outs = ([], outs)
  | [], outs, h => by
    simp only [collectRecord] at h; cases h; rfl
  | (k, w) :: rest, outs, h => by
    simp only [collectRecord] at h
    rcases hr : collectRecord f rest with ⟨is, ds⟩
    rw [hr] at h
    rcases hw : f w with e | d
    · rw [hw] at h
      have h1 : e.issues.map (prefixIssue (.key k)) ++ is = [] := congrArg Prod.fst h
      rcases List.append_eq_nil.mp h1 with ⟨hmap, _⟩
      exact absurd (List.map_eq_nil_iff.mp hmap) (hne w e hw)
    · rw [hw] at h
      rw [Prod.mk.injEq] at h
      obtain ⟨his, houts⟩ := h
      subst his
      subst houts
      have ih := collectRecord_idem f hf hne rest ds hr
      simp only [collectRecord, ih, hf w d hw]

/-- Object parsing only reads the input at the shape field names. -/
theorem runFields_congr : ∀ (fl : FieldList) (kvs1 kvs2 : List (String × Value)),
    (∀ m, m ∈ fnames fl → List.lookup m kvs1 = List.lookup m kvs2) →
    runFields fl kvs1 = runFields fl kvs2
  | .fnil, _, _, _ => rfl
  | .fcons n s rest, kvs1, kvs2, h => by
    have hn := h n (by simp [fnames])
    have hrest := runFields_congr rest kvs1 kvs2 (fun m hm => h m (by simp [fnames, hm]))
    simp only [runFields, hn, hrest]

/-- The output object of a shape parse binds no key outside the
shape names. -/
theorem runFields_lookup_none : ∀ (fl : FieldList) (nm : String), nm ∉ fnames fl →
    ∀ kvs, List.lookup nm (runFields fl kvs).2 = none
  | .fnil, nm, hn, kvs => by simp [runFields]
  | .fcons n s rest, nm, hn, kvs => by
    simp only [fnames, List.mem_cons, not_or] at hn
    obtain ⟨hne, hnotin⟩ := hn
    have ih := runFields_lookup_none rest nm hnotin kvs
    simp only [runFields]
    rcases hrest : runFields rest kvs with ⟨ri, ro⟩
    rw [hrest] at ih
    rcases hrun : runSchema s ((List.lookup n kvs).getD .vUndefined) with e | dv
    · exact ih
    · dsimp only
      split
      · exact ih
      · simp only [List.lookup_cons, beq_eq_false_iff_ne.mpr hne]
        exact ih

mutual
/-- Applying a well-formed schema to its own successful output
succeeds with the same value. -/
theorem runSchema_idem : ∀ (s : Schema), wfS s = true → ∀ (v d : Value),
    runSchema s v = .ok d → runSchema s d = .ok d
  | .string checks, hw, v, d, h => by
    rcases v with _ | _ | b | q | str | ms | items | kvs <;>
      simp only [runSchema] at h <;> (try split at h) <;> cases h
    rename_i heq
    simp only [runSchema, heq]
  | .number checks, hw, v, d, h => by
    rcases v with _ | _ | b | q | str | ms | items | kvs <;>
      simp only [runSchema] at h <;> (try split at h) <;> cases h
    rename_i heq
    simp only [runSchema, heq]
  | .boolean, hw, v, d, h => by
    rcases v with _ | _ | b | q | str | ms | items | kvs <;>
      simp only [runSchema] at h <;> cases h <;> rfl
  | .date, hw, v, d, h => by
    rcases v with _ | _ | b | q | str | ms | items | kvs <;>
      simp only [runSchema] at h <;> cases h <;> rfl
  | .any, hw, v, d, h => by
    simp only [runSchema] at h; cases h; rfl
  | .unknown, hw, v, d, h => by
    simp only [runSchema] at h; cases h; rfl
  | .literalFalse, hw, v, d, h => by
    rcases v with _ | _ | b | q | str | ms | items | kvs <;>
      (try rcases b with _ | _) <;>
      simp only [runSchema] at h <;> cases h <;> rfl
  | .enumOf values, hw, v, d, h => by
    rcases v with _ | _ | b | q | str | ms | items | kvs <;>
      simp only [runSchema] at h <;> (try split at h) <;> cases h
    rename_i heq
    have hmem : str ∈ values := by simpa using heq
    simp [runSchema, hmem]
  | .nativeEnumOf values, hw, v, d, h => by
    rcases v with _ | _ | b | q | str | ms | items | kvs <;>
      simp only [runSchema] at h <;> (try split at h) <;> cases h
    rename_i heq
    have hmem : str ∈ values := by simpa using heq
    simp [runSchema, hmem]
  | .obj fl, hw, v, d, h => by
    simp only [wfS] at hw
    rcases v with _ | _ | b | q | str | ms | items | kvs <;>
      simp only [runSchema] at h <;> (try split at h) <;> cases h
    rename_i outs heq
    have hidem := runFields_idem fl hw _ _ heq
    simp only [runSchema, hidem]
  | .array elem none, hw, v, d, h => by
    simp only [wfS] at hw
    rcases v with _ | _ | b | q | str | ms | items | kvs <;>
      simp only [runSchema, List.nil_append] at h <;> (try split at h) <;> cases h
    rename_i heq
    rcases hc : collectItems (runSchema elem) 0 items with ⟨is, outs⟩
    rw [hc] at heq
    simp only at heq
    subst heq
    have hidem := collectItems_idem (runSchema elem) (runSchema_idem elem hw)
      (runSchema_error_ne_nil elem) items 0 outs hc
    simp only [runSchema, List.nil_append, hc, hidem]
  | .array elem (some nmsg), hw, v, d, h => by
    simp only [wfS] at hw
    rcases v with _ | _ | b | q | str | ms | items | kvs <;>
      simp only [runSchema] at h
    case vArr =>
      rcases nmsg with ⟨n, msg⟩
      by_cases hlen : items.length < n
      · simp [hlen] at h
      · simp only [hlen, if_false, List.nil_append] at h
        split at h
        case _ heq =>
          cases h
          rcases hc : collectItems (runSchema elem) 0 items with ⟨is, outs⟩
          rw [hc] at heq
          simp only at heq
          subst heq
          have hidem := collectItems_idem (runSchema elem) (runSchema_idem elem hw)
            (runSchema_error_ne_nil elem) items 0 outs hc
          have hlen2 := collectItems_len (runSchema elem)
            (runSchema_error_ne_nil elem) items 0 outs hc
          simp only [runSchema, hc, hidem, hlen2, hlen, if_false, List.nil_append]
        case _ => cases h
    all_goals cases h
  | .record valueSchema, hw, v, d, h => by
    simp only [wfS] at hw
    rcases v with _ | _ | b | q | str | ms | items | kvs <;>
      simp only [runSchema] at h <;> (try split at h) <;> cases h
    rename_i outs heq
    have hidem := collectRecord_idem (runSchema valueSchema)
      (runSchema_idem valueSchema hw) (runSchema_error_ne_nil valueSchema) kvs outs heq
    simp only [runSchema, hidem]
  | .dateOrIso, hw, v, d, h => by
    rcases v with _ | _ | b | q | str | ms | items | kvs <;>
      simp only [runSchema] at h <;> (try split at h) <;> cases h
    · rename_i heq
      simp [runSchema, heq]
    · rfl
  | .optional inner, hw, v, d, h => by
    simp only [wfS] at hw
    rcases v with _ | _ | b | q | str | ms | items | kvs <;>
      simp only [runSchema] at h
    case vUndefined => cases h; rfl
    all_goals {
      have hd := runSchema_idem inner hw _ _ h
      rcases d with _ | _ | _ | _ | _ | _ | _ | _ <;>
        simp only [runSchema] <;> first | rfl | exact hd
    }
  | .brandTransform inner, hw, v, d, h => by
    simp only [wfS] at hw
    simp only [runSchema] at h ⊢
    exact runSchema_idem inner hw _ _ h
  | .refine inner test msg path, hw, v, d, h => by
    simp only [wfS] at hw
    simp only [runSchema] at h
    split at h
    case _ d0 hd0 =>
      split at h
      case _ htest =>
        cases h
        have hinner := runSchema_idem inner hw _ _ hd0
        simp only [runSchema, hinner, htest, if_true]
      case _ => cases h
    case _ e2 he2 => cases h

/-- Re-parsing the output of a successful shape parse reproduces it. -/
theorem runFields_idem : ∀ (fl : FieldList), wfF fl = true →
    ∀ (kvs outs : List (String × Value)),
    runFields fl kvs = ([], outs) → runFields fl outs = ([], outs)
  | .fnil, hw, kvs, outs, h => by
    simp only [runFields] at h
    cases h
    rfl
  | .fcons n s rest, hw, kvs, outs, h => by
    simp only [wfF, Bool.and_eq_true] at hw
    obtain ⟨⟨hnotin, hs⟩, hrest⟩ := hw
    have hnm : n ∉ fnames rest := by simpa using hnotin
    simp only [runFields] at h
    rcases hr : runFields rest kvs with ⟨ri, ro⟩
    rw [hr] at h
    rcases hrun : runSchema s ((List.lookup n kvs).getD .vUndefined) with e | dv
    · rw [hrun] at h
      have h1 : e.issues.map (prefixIssue (.key n)) ++ ri = [] := congrArg Prod.fst h
      rcases List.append_eq_nil.mp h1 with ⟨hmap, _⟩
      exact absurd (List.map_eq_nil_iff.mp hmap) (runSchema_error_ne_nil s _ _ hrun)
    · rw [hrun] at h
      rw [Prod.mk.injEq] at h
      obtain ⟨hri, houts⟩ := h
      subst hri
      have ihrest := runFields_idem rest hrest kvs ro hr
      by_cases hskip : (dv.isUndef && (List.lookup n kvs).isNone) = true
      · rw [if_pos hskip] at houts
        subst houts
        rw [Bool.and_eq_true] at hskip
        obtain ⟨hdvu, hnone⟩ := hskip
        have hdv : dv = .vUndefined := by
          rcases dv with _ | _ | _ | _ | _ | _ | _ | _ <;>
            simp [Value.isUndef] at hdvu <;> rfl
        subst hdv
        have hnone2 : List.lookup n kvs = none := Option.isNone_iff_eq_none.mp hnone
        rw [hnone2, Option.getD_none] at hrun
        have hlknone : List.lookup n ro = none := by
          have hx := runFields_lookup_none rest n hnm kvs
          rw [hr] at hx
          exact hx
        simp [runFields, hlknone, ihrest, hrun, Value.isUndef]
      · rw [if_neg hskip] at houts
        subst houts
        have hlk : List.lookup n ((n, dv) :: ro) = some dv := by simp
        have hdvok : runSchema s dv = .ok dv := runSchema_idem s hs _ _ hrun
        have hcongr : runFields rest ((n, dv) :: ro) = runFields rest ro :=
          runFields_congr rest _ _ (fun m hm => by
            have hmn : (m == n) = false :=
              beq_eq_false_iff_ne.mpr (fun hEq => hnm (hEq ▸ hm))
            simp [List.lookup_cons, hmn])
        simp [runFields, hlk, hcongr, ihrest, hdvok]
end

/-! ## Registry-level helper lemmas -/

/-- Mapping createValidator over the registry preserves the name
column. -/
theorem validators_keys : VALIDATORS.map Prod.fst = SCHEMA_REGISTRY.map Prod.fst := by
  simp [VALIDATORS]

/-- Keyed lookup misses exactly outside the key column. -/
theorem lookup_eq_none_of_not_mem_keys {β : Type} :
    ∀ (l : List (String × β)) (name : String), name ∉ l.map Prod.fst →
      List.lookup name l = none
  | [], name, _ => rfl
  | (k, b) :: t, name, h => by
    simp only [List.map_cons, List.mem_cons, not_or] at h
    obtain ⟨hne, ht⟩ := h
    simp only [List.lookup_cons, beq_eq_false_iff_ne.mpr hne]
    exact lookup_eq_none_of_not_mem_keys t name ht

/-- Every schema of the registry is well formed: object literals in
the TypeScript source bind every field name once. -/
theorem registry_wf : ∀ k s, (k, s) ∈ SCHEMA_REGISTRY → wfS s = true := by
  intro k s h
  have hall : SCHEMA_REGISTRY.all (fun p => wfS p.2) = true := by rfl
  exact List.all_eq_true.mp hall (k, s) h

/-! ## Claim theorems -/

/-- Claim C1: for every name that is a key of SCHEMA_REGISTRY, the
derived VALIDATORS collection contains the validator for that name,
and the list of validator names equals the list of registry names
exactly — no extra names, no omitted names. -/
theorem C1_registry_validator_parity :
    VALIDATORS.map Prod.fst = SCHEMA_REGISTRY.map Prod.fst ∧
    ∀ k s, (k, s) ∈ SCHEMA_REGISTRY → (k, createValidator s) ∈ VALIDATORS :=
  ⟨validators_keys, fun _ _ h => List.mem_map_of_mem _ h⟩

/-- Claim C1 witness at the loginCredentials entry. -/
theorem C1_registry_validator_parity_witness :
    ("loginCredentials", createValidator LoginCredentialsSchema) ∈ VALIDATORS :=
  C1_registry_validator_parity.2 "loginCredentials" LoginCredentialsSchema
    (List.Mem.head _)

/-- Claim C2: for every registered schema and every input, parse and
safeParse return the same tagged result — a success carrying the
validated value exactly when the underlying schema application
succeeds, a failure carrying the structured error otherwise — and
never anything else. -/
theorem C2_parse_safeparse_tagged_agree :
    ∀ k s, (k, s) ∈ SCHEMA_REGISTRY → ∀ v : Value,
      ((createValidator s).parse v = (createValidator s).safeParse v) ∧
      ((∃ d, (createValidator s).parse v = .success d) ∨
        (∃ e, (createValidator s).parse v = .failure e)) ∧
      (∀ d, (createValidator s).safeParse v = .success d ↔ runSchema s v = .ok d) := by
  intro k s hmem v
  refine ⟨?_, ?_, ?_⟩
  · rcases h : runSchema s v with e | d <;>
      simp [createValidator, schemaParse, schemaSafeParse, h]
  · rcases h : runSchema s v with e | d
    · exact Or.inr ⟨e, by simp [createValidator, schemaParse, h]⟩
    · exact Or.inl ⟨d, by simp [createValidator, schemaParse, h]⟩
  · intro d
    rcases h : runSchema s v with e | d2 <;>
      simp [createValidator, schemaParse, schemaSafeParse, h]

/-- Claim C2 witness at the loginCredentials entry on a null input. -/
theorem C2_parse_safeparse_tagged_agree_witness :
    (createValidator LoginCredentialsSchema).parse .vNull =
      (createValidator LoginCredentialsSchema).safeParse .vNull :=
  (C2_parse_safeparse_tagged_agree "loginCredentials" LoginCredentialsSchema
    (List.Mem.head _) .vNull).1

/-- Claim C3: for every registered schema, validate returns the
validated value exactly when safeParse succeeds with it, and on
invalid input raises — rather than returning a result — the same
structured ZodError that safeParse carries, which always holds at
least one issue, each issue being a (code, path, message) record. -/
theorem C3_validate_raises_structured_error :
    ∀ k s, (k, s) ∈ SCHEMA_REGISTRY → ∀ v : Value,
      (∀ d, (createValidator s).validate v = .ok d ↔
        (createValidator s).safeParse v = .success d) ∧
      (∀ e, (createValidator s).validate v = .error e ↔
        (createValidator s).safeParse v = .failure e) ∧
      (∀ e, (createValidator s).validate v = .error e → e.issues ≠ []) := by
  intro k s hmem v
  refine ⟨?_, ?_, ?_⟩
  · intro d
    rcases h : runSchema s v with e | d2 <;>
      simp [createValidator, schemaParse, schemaSafeParse, h]
  · intro e
    rcases h : runSchema s v with e2 | d2 <;>
      simp [createValidator, schemaParse, schemaSafeParse, h]
  · intro e he
    exact runSchema_error_ne_nil s v e he

/-- Claim C3 witness: the error raised on a null input to the
loginCredentials validator carries at least one issue. -/
theorem C3_validate_raises_structured_error_witness :
    (⟨[⟨"invalid_type", [], "Expected object, received null"⟩]⟩ : ZodError).issues ≠ [] :=
  (C3_validate_raises_structured_error "loginCredentials" LoginCredentialsSchema
    (List.Mem.head _) .vNull).2.2
    ⟨[⟨"invalid_type", [], "Expected object, received null"⟩]⟩ rfl

/-- Claim C4 counterexample: the claim asserts that a numeric offset
timezone such as 2024-01-01T00:00:00+02:00 is accepted by the ISO
date-time validator; the code rejects it, because the bare
z.string().datetime() call uses the zod pattern without the offset
option, which admits only the literal letter Z as timezone
designator. -/
theorem C4_counterexample_offset_rejected :
    (createValidator ISO_DATETIME_VALIDATOR).safeParse
        (.vStr "2024-01-01T00:00:00+02:00") =
      .failure ⟨[⟨"invalid_string", [], "Invalid datetime"⟩]⟩ := rfl

/-- Claim C4 (amended): an input is accepted by the ISO date-time
validator only with a required time component and the literal Z
timezone designator; 2024-01-01T00:00:00.000Z is accepted with
output equal to the input, the bare date 2024-01-01 is rejected, a
numeric offset timezone is rejected, and every accepted string ends
in the letter Z. -/
theorem C4_iso_datetime_z_only :
    ((createValidator ISO_DATETIME_VALIDATOR).safeParse
        (.vStr "2024-01-01T00:00:00.000Z") =
      .success (.vStr "2024-01-01T00:00:00.000Z")) ∧
    ((createValidator ISO_DATETIME_VALIDATOR).safeParse (.vStr "2024-01-01") =
      .failure ⟨[⟨"invalid_string", [], "Invalid datetime"⟩]⟩) ∧
    ((createValidator ISO_DATETIME_VALIDATOR).safeParse
        (.vStr "2024-01-01T00:00:00+02:00") =
      .failure ⟨[⟨"invalid_string", [], "Invalid datetime"⟩]⟩) ∧
    (∀ (str : String) (d : Value),
      (createValidator ISO_DATETIME_VALIDATOR).safeParse (.vStr str) = .success d →
      d = .vStr str ∧ ∃ pre : List Char, str.data = pre ++ ['Z']) := by
  refine ⟨rfl, rfl, rfl, ?_⟩
  intro str d h
  have h2 : schemaSafeParse ISO_DATETIME_VALIDATOR (.vStr str) = .success d := h
  unfold schemaSafeParse at h2
  rcases hr : runSchema ISO_DATETIME_VALIDATOR (.vStr str) with e | d2 <;> rw [hr] at h2
  · cases h2
  · cases h2
    by_cases hc : isoDatetimeCheck str = true
    · refine ⟨?_, isoCheck_endsWithZ str hc⟩
      simp [ISO_DATETIME_VALIDATOR, runSchema, runStringCheck, hc] at hr
      exact hr.symm
    · simp [ISO_DATETIME_VALIDATOR, runSchema, runStringCheck, hc] at hr

/-- Claim C4 witness: the amended theorem applied to the canonical
Z-suffixed timestamp. -/
theorem C4_iso_datetime_z_only_witness :
    (.vStr "2024-01-01T00:00:00.000Z" : Value) = .vStr "2024-01-01T00:00:00.000Z" ∧
    ∃ pre : List Char, ("2024-01-01T00:00:00.000Z" : String).data = pre ++ ['Z'] :=
  C4_iso_datetime_z_only.2.2.2 "2024-01-01T00:00:00.000Z"
    (.vStr "2024-01-01T00:00:00.000Z") rfl

/-- Claim C5: for every identifier schema (the eight branded id
schemas and the raw uuid validator), every string of the UUID shape
(8-4-4-4-12 hexadecimal groups) validates successfully to a value
equal to the input string — branding is type-level only — and the
string not-a-uuid is rejected. -/
theorem C5_identifier_uuid_roundtrip :
    ∀ s, s ∈ UUID_VALIDATOR :: IDENTIFIER_SCHEMAS →
      (∀ str, IsUuidShape str →
        (createValidator s).safeParse (.vStr str) = .success (.vStr str)) ∧
      ((createValidator s).safeParse (.vStr "not-a-uuid") =
        .failure ⟨[⟨"invalid_string", [], "Invalid UUID format"⟩]⟩) := by
  intro s hs
  simp only [IDENTIFIER_SCHEMAS, List.mem_cons, List.not_mem_nil, or_false] at hs
  rcases hs with h | h | h | h | h | h | h | h | h <;> subst h <;>
    refine ⟨fun str hshape => ?_, by rfl⟩ <;>
    · have hc := uuidCheck_of_shape str hshape
      simp [createValidator, schemaSafeParse, UUID_VALIDATOR, createBrandedId,
        REQUEST_ID_SCHEMA, WEBHOOK_ID_SCHEMA, WEBHOOK_DELIVERY_ID_SCHEMA,
        FILE_UPLOAD_ID_SCHEMA, BATCH_ID_SCHEMA, BATCH_ITEM_ID_SCHEMA, USER_ID_SCHEMA,
        ORGANIZATION_ID_SCHEMA, runSchema, runStringCheck, hc]

/-- Claim C5 witness: the uuid validator on a concrete well-shaped
UUID string. -/
theorem C5_identifier_uuid_roundtrip_witness :
    (createValidator UUID_VALIDATOR).safeParse
        (.vStr "d290f1ee-6c54-4b01-90e6-d701748f0851") =
      .success (.vStr "d290f1ee-6c54-4b01-90e6-d701748f0851") :=
  (C5_identifier_uuid_roundtrip UUID_VALIDATOR (List.Mem.head _)).1
    "d290f1ee-6c54-4b01-90e6-d701748f0851"
    ⟨['d', '2', '9', '0', 'f', '1', 'e', 'e'], ['6', 'c', '5', '4'],
     ['4', 'b', '0', '1'], ['9', '0', 'e', '6'],
     ['d', '7', '0', '1', '7', '4', '8', 'f', '0', '8', '5', '1'],
     rfl, rfl, rfl, rfl, rfl, rfl, rfl⟩

/-- Failing refinement over a successfully parsed value produces the
single custom issue at the designated blame path. -/
theorem runSchema_refine_fail (inner : Schema) (test : RefineTest) (msg : String)
    (path : List String) (v d : Value)
    (hobj : runSchema inner v = .ok d) (htest : evalRefineTest test d = false) :
    runSchema (.refine inner test msg path) v =
      .error ⟨[⟨"custom", path.map PathKey.key, msg⟩]⟩ := by
  simp only [runSchema, hobj, htest]
  simp

/-- Claim C6: for both password confirmation schemas, whenever every
per-field rule passes but the password and confirmation strings
differ, validation fails with a single custom issue whose blamed
path is the confirmPassword field, not the password field. -/
theorem C6_password_mismatch_blames_confirm_path :
    (∀ (v d : Value) (pw cf : String),
      runSchema PasswordResetConfirmObject v = .ok d →
      objGet d "newPassword" = .vStr pw →
      objGet d "confirmPassword" = .vStr cf →
      pw ≠ cf →
      runSchema PasswordResetConfirmSchema v =
        .error ⟨[⟨"custom", [.key "confirmPassword"], "Passwords do not match"⟩]⟩) ∧
    (∀ (v d : Value) (pw cf : String),
      runSchema UserRegistrationObject v = .ok d →
      objGet d "password" = .vStr pw →
      objGet d "confirmPassword" = .vStr cf →
      pw ≠ cf →
      runSchema UserRegistrationSchema v =
        .error ⟨[⟨"custom", [.key "confirmPassword"], "Passwords do not match"⟩]⟩) := by
  constructor
  · intro v d pw cf hobj hpw hcf hne
    have hbeq : (pw == cf) = false := beq_eq_false_iff_ne.mpr hne
    have htest : evalRefineTest (.fieldsEqual "newPassword" "confirmPassword") d = false := by
      simp [evalRefineTest, hpw, hcf, jsStrictEq, hbeq]
    exact runSchema_refine_fail _ _ _ _ v d hobj htest
  · intro v d pw cf hobj hpw hcf hne
    have hbeq : (pw == cf) = false := beq_eq_false_iff_ne.mpr hne
    have htest : evalRefineTest (.fieldsEqual "password" "confirmPassword") d = false := by
      simp [evalRefineTest, hpw, hcf, jsStrictEq, hbeq]
    exact runSchema_refine_fail _ _ _ _ v d hobj htest

/-- Claim C6 witness: concrete mismatched inputs for both schemas. -/
theorem C6_password_mismatch_blames_confirm_path_witness :
    runSchema PasswordResetConfirmSchema (.vObj
      [("token", .vStr "resettoken1"), ("newPassword", .vStr "password1"),
       ("confirmPassword", .vStr "password2")]) =
      .error ⟨[⟨"custom", [.key "confirmPassword"], "Passwords do not match"⟩]⟩ ∧
    runSchema UserRegistrationSchema (.vObj
      [("email", .vStr "a@b.co"), ("firstName", .vStr "A"), ("lastName", .vStr "B"),
       ("password", .vStr "password1"), ("confirmPassword", .vStr "password2"),
       ("acceptTerms", .vBool true), ("acceptPrivacy", .vBool true)]) =
      .error ⟨[⟨"custom", [.key "confirmPassword"], "Passwords do not match"⟩]⟩ :=
  ⟨C6_password_mismatch_blames_confirm_path.1
      (.vObj [("token", .vStr "resettoken1"), ("newPassword", .vStr "password1"),
        ("confirmPassword", .vStr "password2")])
      (.vObj [("token", .vStr "resettoken1"), ("newPassword", .vStr "password1"),
        ("confirmPassword", .vStr "password2")])
      "password1" "password2" rfl rfl rfl (by decide),
   C6_password_mismatch_blames_confirm_path.2
      (.vObj [("email", .vStr "a@b.co"), ("firstName", .vStr "A"),
        ("lastName", .vStr "B"), ("password", .vStr "password1"),
        ("confirmPassword", .vStr "password2"), ("acceptTerms", .vBool true),
        ("acceptPrivacy", .vBool true)])
      (.vObj [("email", .vStr "a@b.co"), ("firstName", .vStr "A"),
        ("lastName", .vStr "B"), ("password", .vStr "password1"),
        ("confirmPassword", .vStr "password2"), ("acceptTerms", .vBool true),
        ("acceptPrivacy", .vBool true)])
      "password1" "password2" rfl rfl rfl (by decide)⟩

/-- Claim C7: looking up a name that is not a registry key yields
the undefined value — modelled as none, an unrecoverable fault upon
use that is not a tagged ParseResult failure — through both the
validator collection and the registry accessor. -/
theorem C7_unknown_contract_fault :
    ∀ name : String, name ∉ SCHEMA_REGISTRY.map Prod.fst →
      lookupValidator name = none ∧ lookupSchema name = none := by
  intro name h
  refine ⟨?_, lookup_eq_none_of_not_mem_keys _ _ h⟩
  have h2 : name ∉ VALIDATORS.map Prod.fst := by rw [validators_keys]; exact h
  exact lookup_eq_none_of_not_mem_keys _ _ h2

/-- Claim C7 witness at a never-registered name. -/
theorem C7_unknown_contract_fault_witness :
    lookupValidator "nonexistent" = none ∧ lookupSchema "nonexistent" = none :=
  C7_unknown_contract_fault "nonexistent" (by decide)

/-- Claim C8: for every registered schema, feeding a successful
validation output back through the same validator succeeds again and
produces the same value — validation is idempotent. -/
theorem C8_validation_idempotent :
    ∀ k s, (k, s) ∈ SCHEMA_REGISTRY → ∀ (v d : Value),
      (createValidator s).safeParse v = .success d →
      (createValidator s).safeParse d = .success d := by
  intro k s hmem v d h
  have hwf : wfS s = true := registry_wf k s hmem
  have h2 : schemaSafeParse s v = .success d := h
  unfold schemaSafeParse at h2
  rcases hr : runSchema s v with e | d2 <;> rw [hr] at h2
  · cases h2
  · cases h2
    have hidem := runSchema_idem s hwf v d hr
    show schemaSafeParse s d = .success d
    unfold schemaSafeParse
    rw [hidem]

/-- Claim C8 witness: revalidating a validated login credentials
value. -/
theorem C8_validation_idempotent_witness :
    (createValidator LoginCredentialsSchema).safeParse
        (.vObj [("email", .vStr "a@b.co"), ("password", .vStr "password1")]) =
      .success (.vObj [("email", .vStr "a@b.co"), ("password", .vStr "password1")]) :=
  C8_validation_idempotent "loginCredentials" LoginCredentialsSchema (List.Mem.head _)
    (.vObj [("email", .vStr "a@b.co"), ("password", .vStr "password1")])
    (.vObj [("email", .vStr "a@b.co"), ("password", .vStr "password1")]) rfl

/-- Claim C9: the pagination cursor validator accepts a string
exactly when its length is at least ten (counted as JavaScript
counts string length), with no further structural check, and on
success returns the input string unchanged. -/
theorem C9_cursor_min_length_only :
    ∀ str : String,
      (10 ≤ jsLength str →
        (createValidator CURSOR_VALIDATOR).safeParse (.vStr str) =
          .success (.vStr str)) ∧
      (jsLength str < 10 →
        (createValidator CURSOR_VALIDATOR).safeParse (.vStr str) =
          .failure ⟨[⟨"too_small", [], "Cursor must be at least 10 characters"⟩]⟩) := by
  intro str
  constructor
  · intro h
    have hlt : ¬ (jsLength str < 10) := not_lt.mpr h
    simp [createValidator, schemaSafeParse, CURSOR_VALIDATOR, runSchema,
      runStringCheck, hlt]
  · intro h
    simp [createValidator, schemaSafeParse, CURSOR_VALIDATOR, runSchema,
      runStringCheck, h]

/-- Claim C9 witness: a ten-character cursor is accepted unchanged,
a three-character cursor is rejected. -/
theorem C9_cursor_min_length_only_witness :
    10 ≤ jsLength "abcdefghij" ∧
    (createValidator CURSOR_VALIDATOR).safeParse (.vStr "abcdefghij") =
      .success (.vStr "abcdefghij") ∧
    jsLength "abc" < 10 ∧
    (createValidator CURSOR_VALIDATOR).safeParse (.vStr "abc") =
      .failure ⟨[⟨"too_small", [], "Cursor must be at least 10 characters"⟩]⟩ :=
  ⟨by decide, (C9_cursor_min_length_only "abcdefghij").1 (by decide), by decide,
   (C9_cursor_min_length_only "abc").2 (by decide)⟩

/-- Claim C10: the brand escape hatch returns its string argument
unchanged for every value and brand label, performing no validation:
in particular not-a-uuid — a string every identifier schema rejects —
passes through and is stamped, while the uuid validator rejects it. -/
theorem C10_brand_is_identity_unvalidated :
    (∀ (v b : String), brand v b = v) ∧
    brand "not-a-uuid" "id:user" = "not-a-uuid" ∧
    (createValidator UUID_VALIDATOR).safeParse (.vStr "not-a-uuid") =
      .failure ⟨[⟨"invalid_string", [], "Invalid UUID format"⟩]⟩ :=
  ⟨fun _ _ => rfl, rfl, rfl⟩

end Kitium
